import Mathlib

set_option autoImplicit false

/-!
# Verification of the utility-workers request pipelines

Shallow embedding of the two Cloudflare Workers in this repository:

* the PDF text-extraction worker (`packages/pdf-text`, route `POST /extract`),
* the AI schema-parser worker (`packages/ai-parser`, route `POST /parse`
  and `GET /health`),

together with the shared helpers of `packages/shared/src/utils.ts`.

The external collaborators (the `unpdf` engine, the OpenRouter / AI-Gateway
HTTP endpoint, and the runtime's `JSON.parse`) are modelled as explicit
parameters of the handlers: an `ExtractOutcome` / `FetchOutcome` value
describes what the single outbound call did, and a `jsonParse` function
stands for `JSON.parse` applied to the model's message content.

JavaScript numbers that reach arithmetic do so only through exact
power-of-two divisions (`Math.round(n / 1024)`, `Math.round(n / 1024 / 1024)`),
which are exact in IEEE doubles for any realistic size, so they are modelled
by exact rational rounding on `Nat` (`roundDiv`).
-/

/-- JSON values, as produced by `JSON.parse` / `c.req.json()`.  Numbers are
modelled as integers: no claim depends on fractional numeric values, and
every number the handlers construct themselves (`temperature = 0`,
`maxTokens = 4096`) is an integer. -/
inductive Json where
  | null : Json
  | bool (b : Bool) : Json
  | num (n : Int) : Json
  | str (s : String) : Json
  | arr (elems : List Json) : Json
  | obj (fields : List (String × Json)) : Json

/-- JavaScript truthiness of a JSON value (`!v` is `true` exactly on the
falsy values: `null`, `false`, `0`, `""`; arrays and objects are always
truthy). -/
def Json.truthy : Json → Bool
  | .null => false
  | .bool b => b
  | .num n => n != 0
  | .str s => s != ""
  | .arr _ => true
  | .obj _ => true

/-- JavaScript `typeof` on a JSON value (`typeof null`, arrays and objects
are all `"object"`). -/
def Json.typeof : Json → String
  | .null => "object"
  | .bool _ => "boolean"
  | .num _ => "number"
  | .str _ => "string"
  | .arr _ => "object"
  | .obj _ => "object"

/-- Is this JSON value the literal `null`? -/
def Json.isNull : Json → Bool
  | .null => true
  | _ => false

/-- Property lookup on the field list of a parsed JSON object.
`JSON.parse` keeps the *last* occurrence of a duplicated key, hence the
lookup on the reversed list. Absent key = JavaScript `undefined` = `none`. -/
def jsonLookup (fields : List (String × Json)) (key : String) : Option Json :=
  fields.reverse.lookup key

/-- JavaScript property access `body.k` for a non-`undefined` value:
objects look the key up, every other non-null value yields `undefined`
(none of `text`, `schema`, … exist on strings, numbers, booleans or
arrays).  Access on `null` throws and is handled separately in the
handler. -/
def jsGet : Json → String → Option Json
  | .obj fields, k => jsonLookup fields k
  | _, _ => none

/-- The field list of an object value (the handlers destructure the body
only after validation has established it is an object). -/
def jsonFields : Json → List (String × Json)
  | .obj fields => fields
  | _ => []

/-- `Math.round (n / m)` for natural `n` and positive `m`, where the
JavaScript division is exact (both divisors used in the sources are powers
of two and payloads are far below 2^53): round half away from zero, i.e.
`⌊n/m + 1/2⌋`. -/
def roundDiv (n m : Nat) : Nat := (2 * n + m) / (2 * m)

/-! ## Shared utilities (`packages/shared/src/utils.ts`) -/

/-- The 5-byte PDF signature `%PDF-` as byte values. -/
def pdfMagic : List Nat := [37, 80, 68, 70, 45]

/-- `isValidPdf` from `packages/shared/src/utils.ts`: false when the buffer
has fewer than 5 bytes, otherwise whether the string built from the first
5 bytes starts with `"%PDF-"` — i.e. whether those bytes are exactly the
signature. -/
def isValidPdf (buffer : List Nat) : Bool :=
  if buffer.length < 5 then false
  else buffer.take 5 == pdfMagic

/-! ## PDF text-extraction worker (`POST /extract`) -/

/-- `PdfExtractResponse` from `packages/shared/src/pdf-types.ts`. -/
structure PdfExtractResponse where
  success : Bool
  text : String
  pageCount : Nat
  error : Option String
  processingTimeMs : Option Nat

/-- What the single external `unpdf` call did: returned merged text (which
`pdf.js` may report as `null`, hence `Option String`) and a total page
count after `durationMs` milliseconds, or threw with a message. -/
inductive ExtractOutcome where
  | ok (text : Option String) (totalPages : Nat) (durationMs : Nat)
  | engineError (msg : String)

/-- Result of one `POST /extract` invocation: HTTP status, response body,
and whether the external PDF engine was invoked at all. -/
structure ExtractHandlerResult where
  status : Nat
  response : PdfExtractResponse
  engineCalled : Bool

/-- The `POST /extract` handler of `packages/pdf-text/src/index.ts`.
`buffer` is the request body as bytes, `outcome` describes the external
engine call, and `elapsedMs` is the already-rounded wall-clock time from
`startTime` used by the catch-all error path. -/
def extractHandler (buffer : List Nat) (outcome : ExtractOutcome)
    (elapsedMs : Nat) : ExtractHandlerResult :=
  if buffer.length == 0 then
    ⟨400, ⟨false, "", 0, some "No PDF data provided", none⟩, false⟩
  else if !isValidPdf buffer then
    ⟨400, ⟨false, "", 0, some "Invalid PDF format: missing PDF header", none⟩, false⟩
  else if buffer.length > 50 * 1024 * 1024 then
    ⟨413,
      ⟨false, "", 0,
        some ("PDF too large: " ++ toString (roundDiv buffer.length (1024 * 1024)) ++
          "MB exceeds 50MB limit"), none⟩, false⟩
  else
    match outcome with
    | .ok text totalPages durationMs =>
        ⟨200, ⟨true, text.getD "", totalPages, none, some durationMs⟩, true⟩
    | .engineError msg =>
        ⟨500, ⟨false, "", 0, some msg, some elapsedMs⟩, true⟩

/-! ## AI schema-parser worker (`GET /health`, `POST /parse`) -/

/-- The worker's environment bindings (secrets), each possibly unset. -/
structure Bindings where
  CF_AI_GATEWAY_ACCOUNT_ID : Option String
  CF_AI_GATEWAY_ID : Option String
  CF_AIG_AUTH_TOKEN : Option String
  OPENROUTER_API_KEY : Option String

/-- JavaScript truthiness of an optional string binding (`!!x`): set and
non-empty. -/
def optTruthy : Option String → Bool
  | none => false
  | some s => s != ""

/-- The `config` object of the health response. -/
structure HealthConfig where
  aiGateway : Bool
  directOpenRouter : Bool

/-- Body of the `GET /health` response of the ai-parser worker. -/
structure HealthResponse where
  status : String
  service : String
  config : HealthConfig

/-- The `GET /health` handler of `packages/ai-parser/src/index.ts`:
`aiGateway` is `!!(CF_AI_GATEWAY_ACCOUNT_ID && CF_AI_GATEWAY_ID)`,
`directOpenRouter` is `!!OPENROUTER_API_KEY`. -/
def healthHandler (env : Bindings) : HealthResponse :=
  { status := "ok"
    service := "ai-parser"
    config :=
      { aiGateway := optTruthy env.CF_AI_GATEWAY_ACCOUNT_ID &&
          optTruthy env.CF_AI_GATEWAY_ID
        directOpenRouter := optTruthy env.OPENROUTER_API_KEY } }

/-- The resolved upstream endpoint: URL plus the auth header/value pair. -/
structure ApiConfig where
  url : String
  authHeader : String
  authValue : String

/-- The message of the error thrown when neither credential set is
configured (line 100). -/
def noConfigMsg : String :=
  "No API configuration found. Set CF_AI_GATEWAY_* or OPENROUTER_API_KEY secrets."

/-- `buildApiUrl` from `packages/ai-parser/src/index.ts`: prefer the
Cloudflare AI Gateway when all three gateway bindings are truthy, fall back
to direct OpenRouter when the API key is truthy, otherwise throw (modelled
as `Except.error` with the thrown message). -/
def buildApiUrl (env : Bindings) : Except String ApiConfig :=
  if optTruthy env.CF_AI_GATEWAY_ACCOUNT_ID && optTruthy env.CF_AI_GATEWAY_ID &&
      optTruthy env.CF_AIG_AUTH_TOKEN then
    .ok
      { url := "https://gateway.ai.cloudflare.com/v1/" ++
          env.CF_AI_GATEWAY_ACCOUNT_ID.getD "" ++ "/" ++
          env.CF_AI_GATEWAY_ID.getD "" ++ "/openrouter" ++ "/chat/completions"
        authHeader := "cf-aig-authorization"
        authValue := "Bearer " ++ env.CF_AIG_AUTH_TOKEN.getD "" }
  else if optTruthy env.OPENROUTER_API_KEY then
    .ok
      { url := "https://openrouter.ai/api/v1/chat/completions"
        authHeader := "Authorization"
        authValue := "Bearer " ++ env.OPENROUTER_API_KEY.getD "" }
  else
    .error noConfigMsg

/-- Token usage statistics of `AiParseResponse`
(`packages/shared/src/ai-types.ts`). -/
structure Usage where
  promptTokens : Nat
  completionTokens : Nat
  totalTokens : Nat

/-- `AiParseResponse` from `packages/shared/src/ai-types.ts`; `data` is
`Json.null` on every failure path. -/
structure AiParseResponse where
  success : Bool
  data : Json
  usage : Option Usage
  error : Option String
  processingTimeMs : Option Nat

/-- One message of the outbound chat request. -/
structure OutboundMessage where
  role : String
  content : Json

/-- The `provider` object attached when `providerSort` is truthy. -/
structure ProviderPrefs where
  sort : Json
  require_parameters : Bool
  allow_fallbacks : Bool

/-- The JSON body of the outbound `fetch` to the OpenRouter /
AI-Gateway chat-completions endpoint (lines 181–204 of
`packages/ai-parser/src/index.ts`), field by field. -/
structure OutboundBody where
  model : Json
  messages : List OutboundMessage
  responseFormatType : String
  responseFormatName : String
  responseFormatStrict : Bool
  responseFormatSchema : Json
  temperature : Json
  max_tokens : Json
  provider : Option ProviderPrefs

/-- The default system prompt. -/
def defaultSystemPrompt : String :=
  "Extract the requested information from the text and return valid JSON matching the schema."

/-- The default model identifier. -/
def defaultModel : String := "google/gemini-2.5-flash-lite"

/-- Destructuring with defaults (lines 162–171) followed by construction of
the outbound request body (lines 181–204).  A destructuring default fires
exactly when the property is absent (`undefined`); `providerSort` attaches
the `provider` object exactly when its value is truthy
(`...(providerSort && { provider: … })`). -/
def buildOutboundBody (fields : List (String × Json)) : OutboundBody :=
  { model := (jsonLookup fields "model").getD (.str defaultModel)
    messages :=
      [⟨"system", (jsonLookup fields "systemPrompt").getD (.str defaultSystemPrompt)⟩,
       ⟨"user", (jsonLookup fields "text").getD .null⟩]
    responseFormatType := "json_schema"
    responseFormatName := "extraction"
    responseFormatStrict := true
    responseFormatSchema := (jsonLookup fields "schema").getD .null
    temperature := (jsonLookup fields "temperature").getD (.num 0)
    max_tokens := (jsonLookup fields "maxTokens").getD (.num 4096)
    provider :=
      match jsonLookup fields "providerSort" with
      | some v => if v.truthy then some ⟨v, true, false⟩ else none
      | none => none }

/-- One choice's `message` in the upstream chat-completions response;
`content` is typed `string | null`. -/
structure ApiMessage where
  content : Option String

/-- One element of the upstream `choices` array; `message` may be absent
(the handler reads it with `?.`). -/
structure ApiChoice where
  message : Option ApiMessage

/-- The upstream `usage` object (snake_case fields). -/
structure ApiUsage where
  prompt_tokens : Nat
  completion_tokens : Nat
  total_tokens : Nat

/-- What the single outbound `fetch` did: a transport-level success with a
parsed JSON body (`choices` itself read with `?.`, plus optional `usage`)
timed at `durationMs` by `withTiming`; a non-ok HTTP status whose body text
was read; or a thrown network/transport error. -/
inductive FetchOutcome where
  | ok (choices : Option (List ApiChoice)) (usage : Option ApiUsage) (durationMs : Nat)
  | httpError (status : Nat) (bodyText : String)
  | networkError (msg : String)

/-- `apiResult.choices?.[0]?.message?.content` (line 223). -/
def contentOf (choices : Option (List ApiChoice)) : Option String :=
  match choices with
  | none => none
  | some cs =>
    match cs.head? with
    | none => none
    | some c =>
      match c.message with
      | none => none
      | some m => m.content

/-- Conversion of the upstream `usage` object into the response's
camelCase `usage` (lines 252–258). -/
def usageConv : Option ApiUsage → Option Usage
  | none => none
  | some u => some ⟨u.prompt_tokens, u.completion_tokens, u.total_tokens⟩

/-- Result of one `POST /parse` invocation: HTTP status, response body,
and the body of the outbound HTTP call when one was attempted (`none`
means zero external calls). -/
structure ParseHandlerResult where
  status : Nat
  response : AiParseResponse
  outboundCall : Option OutboundBody

/-- The request body as seen by `c.req.json()`: either a JSON value, or
unparseable (the runtime throws a syntax error whose message lands in the
catch-all handler). -/
inductive ReqBody where
  | malformed (parseErrMsg : String)
  | json (j : Json)

/-- `!body.text || typeof body.text !== "string"` (line 120), with `none`
standing for an absent property (`undefined`). -/
def missingOrInvalidText : Option Json → Bool
  | none => true
  | some v => !v.truthy || v.typeof != "string"

/-- `!body.schema || typeof body.schema !== "object"` (line 129). -/
def missingOrInvalidSchema : Option Json → Bool
  | none => true
  | some v => !v.truthy || v.typeof != "object"

/-- The string value of a validated `text` property (after
`missingOrInvalidText` returned `false` the value is a `.str`). -/
def textString : Option Json → String
  | some (.str s) => s
  | _ => ""

/-- The message of the `TypeError` thrown by `body.text` when the parsed
body is the JSON literal `null`. -/
def nullAccessMsg : String := "Cannot read properties of null (reading 'text')"

/-- JavaScript `s.slice(0, n)`: the first `n` characters of `s` (all of
`s` when it is shorter). -/
def sliceTo (s : String) (n : Nat) : String := String.mk (s.data.take n)

/-- The external-call stage of `POST /parse` (lines 174–262 plus the
catch-all): perform the timed `fetch` described by `outcome` and normalise
its result.  `jsonParse` models `JSON.parse` on the message content,
`elapsedMs` the outer `Math.round(performance.now() - startTime)` used
when the thrown `fetch` error reaches the catch-all handler. -/
def callExternal (ob : OutboundBody) (jsonParse : String → Option Json)
    (outcome : FetchOutcome) (elapsedMs : Nat) : ParseHandlerResult :=
  match outcome with
  | .httpError status bodyText =>
      ⟨500,
        ⟨false, .null, none,
          some ("API error (" ++ toString status ++ "): " ++ bodyText),
          some elapsedMs⟩, some ob⟩
  | .networkError msg =>
      ⟨500, ⟨false, .null, none, some msg, some elapsedMs⟩, some ob⟩
  | .ok choices usage durationMs =>
    match contentOf choices with
    | none =>
        ⟨500, ⟨false, .null, none, some "AI returned empty response", some durationMs⟩,
          some ob⟩
    | some s =>
      if s == "" then
        ⟨500, ⟨false, .null, none, some "AI returned empty response", some durationMs⟩,
          some ob⟩
      else
        match jsonParse s with
        | none =>
            ⟨500,
              ⟨false, .null, none,
                some ("AI returned invalid JSON: " ++ sliceTo s 100 ++ "..."),
                some durationMs⟩, some ob⟩
        | some v =>
            ⟨200, ⟨true, v, usageConv usage, none, some durationMs⟩, some ob⟩

/-- The configuration stage (lines 149–160): resolve the endpoint, turning
a thrown configuration error into an HTTP 500 with no external call, then
hand over to the external-call stage. -/
def withConfig (env : Bindings) (fields : List (String × Json))
    (jsonParse : String → Option Json) (outcome : FetchOutcome)
    (elapsedMs : Nat) : ParseHandlerResult :=
  match buildApiUrl env with
  | .error msg => ⟨500, ⟨false, .null, none, some msg, none⟩, none⟩
  | .ok _ => callExternal (buildOutboundBody fields) jsonParse outcome elapsedMs

/-- The validation stage (lines 120–147) applied to a parsed, non-null
body `j`, followed by the configuration and external-call stages. -/
def validateAndRun (env : Bindings) (j : Json)
    (jsonParse : String → Option Json) (outcome : FetchOutcome)
    (elapsedMs : Nat) : ParseHandlerResult :=
  if missingOrInvalidText (jsGet j "text") then
    ⟨400, ⟨false, .null, none, some "Missing or invalid 'text' field", none⟩, none⟩
  else if missingOrInvalidSchema (jsGet j "schema") then
    ⟨400, ⟨false, .null, none, some "Missing or invalid 'schema' field", none⟩, none⟩
  else if (textString (jsGet j "text")).length > 100 * 1024 then
    ⟨413,
      ⟨false, .null, none,
        some ("Text too large: " ++
          toString (roundDiv (textString (jsGet j "text")).length 1024) ++
          "KB exceeds 100KB limit"), none⟩, none⟩
  else
    withConfig env (jsonFields j) jsonParse outcome elapsedMs

/-- The `POST /parse` handler of `packages/ai-parser/src/index.ts`.  A
malformed body makes `c.req.json()` throw into the catch-all handler
(HTTP 500, the parse error's message, elapsed time populated); a body that
parsed to `null` throws a `TypeError` at the first property access with
the same effect; otherwise the validation pipeline runs. -/
def parseHandler (env : Bindings) (body : ReqBody)
    (jsonParse : String → Option Json) (outcome : FetchOutcome)
    (elapsedMs : Nat) : ParseHandlerResult :=
  match body with
  | .malformed msg =>
      ⟨500, ⟨false, .null, none, some msg, some elapsedMs⟩, none⟩
  | .json .null =>
      ⟨500, ⟨false, .null, none, some nullAccessMsg, some elapsedMs⟩, none⟩
  | .json j => validateAndRun env j jsonParse outcome elapsedMs

/-! ## Statement-side predicates and concrete inputs -/

/-- The discriminated-shape invariant of `PdfExtractResponse` as the spec
states it: on failure `text` is empty and `pageCount` is `0`; on success
no `error` field is present. -/
def pdfShapeOk (r : PdfExtractResponse) : Bool :=
  if r.success then r.error.isNone
  else (r.text == "") && (r.pageCount == 0)

/-- The discriminated-shape invariant of `AiParseResponse` as the spec
states it: on failure `data` is `null`. -/
def aiShapeOk (r : AiParseResponse) : Bool :=
  if r.success then true else r.data.isNull

/-- The claim's antecedent "`text` is absent or not a string" (any string,
including the empty one, counts as a string here). -/
def textAbsentOrNonString : Option Json → Bool
  | none => true
  | some v => v.typeof != "string"

/-- The claim's antecedent "`schema` is absent or not an object": absent,
or `null` (which is not an object even though `typeof null` is
`"object"`), or of a non-object `typeof`. -/
def schemaAbsentOrNonObject : Option Json → Bool
  | none => true
  | some .null => true
  | some v => v.typeof != "object"

/-- A 102,401-character text, one character over the parse limit. -/
def longText : String := String.mk (List.replicate 102401 'a')

/-- A byte payload with a valid `%PDF-` signature and 52,428,801 bytes,
one byte over the extraction limit. -/
def bigPdf : List Nat := 37 :: 80 :: 68 :: 70 :: 45 :: List.replicate 52428796 0

/-- An environment with only the direct OpenRouter key configured. -/
def envDirect : Bindings := ⟨none, none, none, some "key"⟩

/-- An environment with every credential configured. -/
def envGateway : Bindings := ⟨some "acct", some "gw", some "tok", some "key"⟩

/-- An environment with no credential configured. -/
def envNone : Bindings := ⟨none, none, none, none⟩

/-- An environment with the gateway account id and gateway id configured
but no gateway auth token and no direct key. -/
def envHalfGateway : Bindings := ⟨some "acct", some "gw", none, none⟩

/-- A minimal request body that passes validation. -/
def validFields : List (String × Json) := [("text", .str "hi"), ("schema", .obj [])]

/-- A valid request body that also supplies `providerSort`. -/
def providerFields : List (String × Json) :=
  [("text", .str "hi"), ("schema", .obj []), ("providerSort", .arr [.str "p1"])]

/-! ## Helper lemmas -/

theorem string_mk_length (l : List Char) : (String.mk l).length = l.length := rfl

theorem longText_length : longText.length = 102401 := by
  rw [longText, string_mk_length, List.length_replicate]

theorem missingOrInvalidText_str (s : String) (hs : s ≠ "") :
    missingOrInvalidText (some (.str s)) = false := by
  simp [missingOrInvalidText, Json.truthy, Json.typeof, hs]

theorem parseHandler_valid_eq (env : Bindings) (fields : List (String × Json))
    (s : String) (p : String → Option Json) (f : FetchOutcome) (e : Nat)
    (ht : jsonLookup fields "text" = some (.str s)) (hs : s ≠ "")
    (hlen : s.length ≤ 100 * 1024)
    (hsc : missingOrInvalidSchema (jsonLookup fields "schema") = false) :
    parseHandler env (.json (.obj fields)) p f e = withConfig env fields p f e := by
  show validateAndRun env (.obj fields) p f e = withConfig env fields p f e
  unfold validateAndRun
  simp [jsGet, jsonFields, ht, textString, missingOrInvalidText_str s hs, hsc,
    show ¬(100 * 1024 < s.length) from by omega]

theorem aiShapeOk_callExternal (ob : OutboundBody) (p : String → Option Json)
    (f : FetchOutcome) (e : Nat) :
    aiShapeOk (callExternal ob p f e).response = true := by
  unfold callExternal
  split
  · rfl
  · rfl
  · split
    · rfl
    · split
      · rfl
      · split
        · rfl
        · rfl

theorem aiShapeOk_withConfig (env : Bindings) (fields : List (String × Json))
    (p : String → Option Json) (f : FetchOutcome) (e : Nat) :
    aiShapeOk (withConfig env fields p f e).response = true := by
  unfold withConfig
  cases hb : buildApiUrl env with
  | error msg => rfl
  | ok cfg => exact aiShapeOk_callExternal (buildOutboundBody fields) p f e

theorem aiShapeOk_validateAndRun (env : Bindings) (j : Json)
    (p : String → Option Json) (f : FetchOutcome) (e : Nat) :
    aiShapeOk (validateAndRun env j p f e).response = true := by
  unfold validateAndRun
  split
  · rfl
  split
  · rfl
  split
  · rfl
  exact aiShapeOk_withConfig env (jsonFields j) p f e

/-! ## Claims -/

/-- C1: every response body of both services satisfies the
discriminated-shape invariant: for the extraction service, every response
with `success=false` has `text=""` and `pageCount=0` and every response
with `success=true` has no `error` field; for the parse service, every
response with `success=false` has `data=null`. -/
theorem c1_discriminated_shape :
    (∀ (buffer : List Nat) (o : ExtractOutcome) (e : Nat),
        pdfShapeOk (extractHandler buffer o e).response = true) ∧
    (∀ (env : Bindings) (body : ReqBody) (p : String → Option Json)
        (f : FetchOutcome) (e : Nat),
        aiShapeOk (parseHandler env body p f e).response = true) := by
  constructor
  · intro b o e
    unfold extractHandler
    split
    · rfl
    split
    · rfl
    split
    · rfl
    cases o <;> rfl
  · intro env body p f e
    cases body with
    | malformed msg => rfl
    | json j =>
      cases j with
      | null => rfl
      | bool b => exact aiShapeOk_validateAndRun env (.bool b) p f e
      | num n => exact aiShapeOk_validateAndRun env (.num n) p f e
      | str s => exact aiShapeOk_validateAndRun env (.str s) p f e
      | arr xs => exact aiShapeOk_validateAndRun env (.arr xs) p f e
      | obj fs => exact aiShapeOk_validateAndRun env (.obj fs) p f e

/-- C10: if the request body of `POST /parse` is not parseable as JSON at
all, the service returns HTTP 500 via the catch-all handler with
`success:false`, `data:null`, the parser's error message as the `error`
field and `processingTimeMs` populated — not the 400 client-error class
used for missing fields — and no external call is made. -/
theorem c10_unparseable_body_is_500 :
    ∀ (env : Bindings) (msg : String) (p : String → Option Json)
      (f : FetchOutcome) (e : Nat),
      parseHandler env (.malformed msg) p f e =
        ⟨500, ⟨false, .null, none, some msg, some e⟩, none⟩ ∧
      (parseHandler env (.malformed msg) p f e).status ≠ 400 := by
  intro env msg p f e
  refine ⟨rfl, ?_⟩
  have h : (parseHandler env (.malformed msg) p f e).status = 500 := rfl
  rw [h]
  omega

/-- C8 counterexample: with the gateway account id and gateway id set but
no gateway auth token and no direct key, the health endpoint reports
`aiGateway = true` although the gateway credential set (which includes the
auth token) is not fully configured and endpoint selection would fail. -/
theorem c8_health_gateway_flag_cex :
    (healthHandler envHalfGateway).config.aiGateway = true ∧
    optTruthy envHalfGateway.CF_AIG_AUTH_TOKEN = false ∧
    buildApiUrl envHalfGateway = .error noConfigMsg := by
  refine ⟨rfl, rfl, rfl⟩

/-- C8 (amended): the health endpoint reports `config.aiGateway` as true
iff the gateway account id and gateway id are configured — the gateway
auth token is not consulted — and `config.directOpenRouter` as true iff
the direct API key is configured. -/
theorem c8_health_flags :
    ∀ env : Bindings,
      (healthHandler env).status = "ok" ∧
      (healthHandler env).service = "ai-parser" ∧
      (healthHandler env).config.aiGateway =
        (optTruthy env.CF_AI_GATEWAY_ACCOUNT_ID && optTruthy env.CF_AI_GATEWAY_ID) ∧
      (healthHandler env).config.directOpenRouter = optTruthy env.OPENROUTER_API_KEY := by
  intro env
  exact ⟨rfl, rfl, rfl, rfl⟩

theorem bigPdf_length : bigPdf.length = 52428801 := by
  show (37 :: 80 :: 68 :: 70 :: 45 :: List.replicate 52428796 0).length = 52428801
  rw [List.length_cons, List.length_cons, List.length_cons, List.length_cons,
    List.length_cons, List.length_replicate]

theorem isValidPdf_bigPdf : isValidPdf bigPdf = true := by
  unfold isValidPdf
  rw [bigPdf_length, if_neg (by norm_num)]
  rfl

/-- C2: the extraction validator applies its checks in order — empty, then
format, then size — before any external call: a zero-length payload yields
HTTP 400 with `success:false`, `text:""`, `pageCount:0` and error
`"No PDF data provided"`; a non-empty payload whose first 5 bytes are not
`%PDF-` yields HTTP 400 with the same failure shape; a payload with a
valid signature and more than 52,428,800 bytes yields HTTP 413 with an
error message reporting the size rounded to whole MiB.  In all three
cases the external engine is not invoked. -/
theorem c2_extract_validation :
    (∀ (o : ExtractOutcome) (e : Nat),
        extractHandler [] o e =
          ⟨400, ⟨false, "", 0, some "No PDF data provided", none⟩, false⟩) ∧
    (∀ (b : List Nat) (o : ExtractOutcome) (e : Nat),
        b ≠ [] → isValidPdf b = false →
        extractHandler b o e =
          ⟨400, ⟨false, "", 0, some "Invalid PDF format: missing PDF header", none⟩,
            false⟩) ∧
    (∀ (b : List Nat) (o : ExtractOutcome) (e : Nat),
        isValidPdf b = true → b.length > 52428800 →
        extractHandler b o e =
          ⟨413,
            ⟨false, "", 0,
              some ("PDF too large: " ++ toString (roundDiv b.length (1024 * 1024)) ++
                "MB exceeds 50MB limit"), none⟩, false⟩) := by
  refine ⟨fun o e => rfl, fun b o e hne hv => ?_, fun b o e hv hlen => ?_⟩
  · have h0 : (b.length == 0) = false := by
      simp [List.length_eq_zero, hne]
    unfold extractHandler
    rw [h0]
    simp [hv]
  · have h0 : (b.length == 0) = false := by
      rw [beq_eq_false_iff_ne]
      omega
    unfold extractHandler
    rw [h0, hv]
    simp [hlen]

/-- C2 witness: the three rejections at concrete payloads — the empty
payload, a 1-byte payload without the signature, and a 52,428,801-byte
payload with a valid signature. -/
theorem c2_extract_validation_witness :
    extractHandler [] (.engineError "boom") 0 =
      ⟨400, ⟨false, "", 0, some "No PDF data provided", none⟩, false⟩ ∧
    extractHandler [1] (.engineError "boom") 0 =
      ⟨400, ⟨false, "", 0, some "Invalid PDF format: missing PDF header", none⟩,
        false⟩ ∧
    extractHandler bigPdf (.engineError "boom") 0 =
      ⟨413,
        ⟨false, "", 0,
          some ("PDF too large: " ++ toString (roundDiv bigPdf.length (1024 * 1024)) ++
            "MB exceeds 50MB limit"), none⟩, false⟩ :=
  ⟨c2_extract_validation.1 _ _,
    c2_extract_validation.2.1 [1] _ _ (by simp) (by decide),
    c2_extract_validation.2.2 bigPdf _ _ isValidPdf_bigPdf
      (by rw [bigPdf_length]; norm_num)⟩

theorem textClaim_imp_code (t : Option Json)
    (h : textAbsentOrNonString t = true) : missingOrInvalidText t = true := by
  cases t with
  | none => rfl
  | some v =>
    simp [textAbsentOrNonString] at h
    simp [missingOrInvalidText, h]

theorem schemaClaim_imp_code (t : Option Json)
    (h : schemaAbsentOrNonObject t = true) : missingOrInvalidSchema t = true := by
  cases t with
  | none => rfl
  | some v =>
    cases v <;>
      simp_all [schemaAbsentOrNonObject, missingOrInvalidSchema, Json.truthy, Json.typeof]

/-- C3 counterexample: a request whose `text` is a string of 102,401
characters (over the limit) but whose `schema` is absent is answered with
HTTP 400 (the schema MissingField rejection), not the HTTP 413 the claim
requires for every over-long text, because the schema check runs before
the size check. -/
theorem c3_oversize_text_cex :
    longText.length > 102400 ∧
    (parseHandler envDirect (.json (.obj [("text", .str longText)]))
        (fun _ => none) (.networkError "x") 0).status = 400 ∧
    (parseHandler envDirect (.json (.obj [("text", .str longText)]))
        (fun _ => none) (.networkError "x") 0).response.error =
      some "Missing or invalid 'schema' field" := by
  refine ⟨?_, rfl, rfl⟩
  rw [longText_length]
  norm_num

/-- C3 (amended): for every parse request body in which `text` is absent
or not a string, or `schema` is absent or not an object, `POST /parse`
returns HTTP 400 with `success:false` and `data:null` and no outbound
call is made; and for every body whose `text` is a string longer than
102,400 characters *and which passes the schema check*, it returns HTTP
413 with an error message reporting the size rounded to whole KiB,
likewise with no external call. -/
theorem c3_parse_validation :
    (∀ (fields : List (String × Json)) (env : Bindings)
        (p : String → Option Json) (f : FetchOutcome) (e : Nat),
        (textAbsentOrNonString (jsonLookup fields "text") = true ∨
          schemaAbsentOrNonObject (jsonLookup fields "schema") = true) →
        (parseHandler env (.json (.obj fields)) p f e).status = 400 ∧
        (parseHandler env (.json (.obj fields)) p f e).response.success = false ∧
        (parseHandler env (.json (.obj fields)) p f e).response.data = .null ∧
        (parseHandler env (.json (.obj fields)) p f e).outboundCall = none) ∧
    (∀ (fields : List (String × Json)) (s : String) (env : Bindings)
        (p : String → Option Json) (f : FetchOutcome) (e : Nat),
        jsonLookup fields "text" = some (.str s) → s.length > 102400 →
        missingOrInvalidSchema (jsonLookup fields "schema") = false →
        parseHandler env (.json (.obj fields)) p f e =
          ⟨413,
            ⟨false, .null, none,
              some ("Text too large: " ++ toString (roundDiv s.length 1024) ++
                "KB exceeds 100KB limit"), none⟩, none⟩) := by
  constructor
  · intro fields env p f e h
    by_cases hT : missingOrInvalidText (jsonLookup fields "text") = true
    · have heq : parseHandler env (.json (.obj fields)) p f e =
          ⟨400, ⟨false, .null, none, some "Missing or invalid 'text' field", none⟩,
            none⟩ := by
        show validateAndRun env (.obj fields) p f e = _
        unfold validateAndRun
        simp [jsGet, hT]
      rw [heq]
      exact ⟨rfl, rfl, rfl, rfl⟩
    · have hT' : missingOrInvalidText (jsonLookup fields "text") = false := by
        revert hT
        cases missingOrInvalidText (jsonLookup fields "text") <;> simp
      have hS : missingOrInvalidSchema (jsonLookup fields "schema") = true := by
        rcases h with h | h
        · exact absurd (textClaim_imp_code _ h) hT
        · exact schemaClaim_imp_code _ h
      have heq : parseHandler env (.json (.obj fields)) p f e =
          ⟨400, ⟨false, .null, none, some "Missing or invalid 'schema' field", none⟩,
            none⟩ := by
        show validateAndRun env (.obj fields) p f e = _
        unfold validateAndRun
        simp [jsGet, hT', hS]
      rw [heq]
      exact ⟨rfl, rfl, rfl, rfl⟩
  · intro fields s env p f e ht hlen hsc
    have hs : s ≠ "" := by
      intro h
      subst h
      have h0 : ("" : String).length = 0 := rfl
      omega
    show validateAndRun env (.obj fields) p f e = _
    unfold validateAndRun
    simp [jsGet, ht, missingOrInvalidText_str s hs, hsc, textString, hlen]

/-- C3 witness: a body with no fields at all is rejected with HTTP 400 and
no external call; a body with an over-long `text` and a valid `schema` is
rejected with HTTP 413 and no external call. -/
theorem c3_parse_validation_witness :
    ((parseHandler envDirect (.json (.obj [])) (fun _ => none)
        (.networkError "x") 0).status = 400 ∧
      (parseHandler envDirect (.json (.obj [])) (fun _ => none)
        (.networkError "x") 0).response.success = false ∧
      (parseHandler envDirect (.json (.obj [])) (fun _ => none)
        (.networkError "x") 0).response.data = .null ∧
      (parseHandler envDirect (.json (.obj [])) (fun _ => none)
        (.networkError "x") 0).outboundCall = none) ∧
    parseHandler envDirect
        (.json (.obj [("text", .str longText), ("schema", .obj [])]))
        (fun _ => none) (.networkError "x") 0 =
      ⟨413,
        ⟨false, .null, none,
          some ("Text too large: " ++ toString (roundDiv longText.length 1024) ++
            "KB exceeds 100KB limit"), none⟩, none⟩ :=
  ⟨c3_parse_validation.1 [] envDirect (fun _ => none) (.networkError "x") 0
      (Or.inl rfl),
    c3_parse_validation.2 [("text", .str longText), ("schema", .obj [])] longText
      envDirect (fun _ => none) (.networkError "x") 0 rfl
      (by rw [longText_length]; norm_num) rfl⟩

theorem gatewayCond_false (env : Bindings)
    (h : optTruthy env.CF_AI_GATEWAY_ACCOUNT_ID = false ∨
      optTruthy env.CF_AI_GATEWAY_ID = false ∨
      optTruthy env.CF_AIG_AUTH_TOKEN = false) :
    (optTruthy env.CF_AI_GATEWAY_ACCOUNT_ID && optTruthy env.CF_AI_GATEWAY_ID &&
      optTruthy env.CF_AIG_AUTH_TOKEN) = false := by
  rcases h with h | h | h <;> simp [h]

theorem buildApiUrl_noConfig (env : Bindings)
    (hg : optTruthy env.CF_AI_GATEWAY_ACCOUNT_ID = false ∨
      optTruthy env.CF_AI_GATEWAY_ID = false ∨
      optTruthy env.CF_AIG_AUTH_TOKEN = false)
    (hk : optTruthy env.OPENROUTER_API_KEY = false) :
    buildApiUrl env = .error noConfigMsg := by
  unfold buildApiUrl
  rw [gatewayCond_false env hg]
  simp [hk]

/-- C4: upstream endpoint selection is deterministic with gateway
priority: with all three gateway bindings configured the gateway-routed
endpoint is chosen regardless of the direct key; otherwise a configured
direct key selects the direct endpoint; with neither configuration,
`POST /parse` answers HTTP 500 with the configuration error message in
the body and attempts no outbound call. -/
theorem c4_endpoint_selection :
    (∀ (env : Bindings) (acct gw tok : String),
        env.CF_AI_GATEWAY_ACCOUNT_ID = some acct → acct ≠ "" →
        env.CF_AI_GATEWAY_ID = some gw → gw ≠ "" →
        env.CF_AIG_AUTH_TOKEN = some tok → tok ≠ "" →
        buildApiUrl env = .ok
          ⟨"https://gateway.ai.cloudflare.com/v1/" ++ acct ++ "/" ++ gw ++
              "/openrouter" ++ "/chat/completions",
            "cf-aig-authorization", "Bearer " ++ tok⟩) ∧
    (∀ (env : Bindings) (key : String),
        (optTruthy env.CF_AI_GATEWAY_ACCOUNT_ID = false ∨
          optTruthy env.CF_AI_GATEWAY_ID = false ∨
          optTruthy env.CF_AIG_AUTH_TOKEN = false) →
        env.OPENROUTER_API_KEY = some key → key ≠ "" →
        buildApiUrl env = .ok
          ⟨"https://openrouter.ai/api/v1/chat/completions", "Authorization",
            "Bearer " ++ key⟩) ∧
    (∀ (env : Bindings),
        (optTruthy env.CF_AI_GATEWAY_ACCOUNT_ID = false ∨
          optTruthy env.CF_AI_GATEWAY_ID = false ∨
          optTruthy env.CF_AIG_AUTH_TOKEN = false) →
        optTruthy env.OPENROUTER_API_KEY = false →
        ∀ (fields : List (String × Json)) (s : String) (p : String → Option Json)
          (f : FetchOutcome) (e : Nat),
          jsonLookup fields "text" = some (.str s) → s ≠ "" → s.length ≤ 102400 →
          missingOrInvalidSchema (jsonLookup fields "schema") = false →
          parseHandler env (.json (.obj fields)) p f e =
            ⟨500, ⟨false, .null, none, some noConfigMsg, none⟩, none⟩) := by
  refine ⟨?_, ?_, ?_⟩
  · intro env acct gw tok ha hane hg hgne htk htkne
    unfold buildApiUrl
    simp [ha, hg, htk, optTruthy, hane, hgne, htkne]
  · intro env key hg hk hkne
    unfold buildApiUrl
    rw [gatewayCond_false env hg]
    simp [hk, optTruthy, hkne]
  · intro env hg hk fields s p f e ht hs hlen hsc
    rw [parseHandler_valid_eq env fields s p f e ht hs (by omega) hsc]
    unfold withConfig
    rw [buildApiUrl_noConfig env hg hk]

/-- C4 witness: the three selection outcomes at concrete environments —
fully configured (gateway wins although the direct key is present), only
the direct key, and nothing configured (HTTP 500, no call). -/
theorem c4_endpoint_selection_witness :
    buildApiUrl envGateway = .ok
      ⟨"https://gateway.ai.cloudflare.com/v1/" ++ "acct" ++ "/" ++ "gw" ++
          "/openrouter" ++ "/chat/completions",
        "cf-aig-authorization", "Bearer " ++ "tok"⟩ ∧
    buildApiUrl envDirect = .ok
      ⟨"https://openrouter.ai/api/v1/chat/completions", "Authorization",
        "Bearer " ++ "key"⟩ ∧
    parseHandler envNone (.json (.obj validFields)) (fun _ => none)
        (.networkError "x") 0 =
      ⟨500, ⟨false, .null, none, some noConfigMsg, none⟩, none⟩ :=
  ⟨c4_endpoint_selection.1 envGateway "acct" "gw" "tok" rfl (by decide) rfl
      (by decide) rfl (by decide),
    c4_endpoint_selection.2.1 envDirect "key" (Or.inl rfl) rfl (by decide),
    c4_endpoint_selection.2.2 envNone (Or.inl rfl) rfl validFields "hi"
      (fun _ => none) (.networkError "x") 0 rfl (by decide) (by decide) rfl⟩

theorem callExternal_outboundCall (ob : OutboundBody) (p : String → Option Json)
    (f : FetchOutcome) (e : Nat) :
    (callExternal ob p f e).outboundCall = some ob := by
  unfold callExternal
  split
  · rfl
  · rfl
  · split
    · rfl
    · split
      · rfl
      · split
        · rfl
        · rfl

/-- C5: for every validated parse request the outbound request body
applies defaults exactly when a field is absent (`systemPrompt` the
generic extraction instruction, `model` `"google/gemini-2.5-flash-lite"`,
`temperature` `0`, `maxTokens` `4096`), carries a system message with the
prompt and a user message with the input text, a strict `json_schema`
response-format constraint named `extraction` with the caller's schema,
and a provider object `{sort, require_parameters:true,
allow_fallbacks:false}` exactly when `providerSort` is supplied. -/
theorem c5_outbound_body :
    (∀ fields : List (String × Json),
        (buildOutboundBody fields).messages =
          [⟨"system", (jsonLookup fields "systemPrompt").getD
              (.str "Extract the requested information from the text and return valid JSON matching the schema.")⟩,
           ⟨"user", (jsonLookup fields "text").getD .null⟩] ∧
        (buildOutboundBody fields).model =
          (jsonLookup fields "model").getD (.str "google/gemini-2.5-flash-lite") ∧
        (buildOutboundBody fields).temperature =
          (jsonLookup fields "temperature").getD (.num 0) ∧
        (buildOutboundBody fields).max_tokens =
          (jsonLookup fields "maxTokens").getD (.num 4096) ∧
        (buildOutboundBody fields).responseFormatType = "json_schema" ∧
        (buildOutboundBody fields).responseFormatName = "extraction" ∧
        (buildOutboundBody fields).responseFormatStrict = true ∧
        (buildOutboundBody fields).responseFormatSchema =
          (jsonLookup fields "schema").getD .null) ∧
    (∀ (fields : List (String × Json)) (elems : List Json),
        jsonLookup fields "providerSort" = some (.arr elems) →
        (buildOutboundBody fields).provider = some ⟨.arr elems, true, false⟩) ∧
    (∀ fields : List (String × Json),
        jsonLookup fields "providerSort" = none →
        (buildOutboundBody fields).provider = none) ∧
    (∀ (env : Bindings) (fields : List (String × Json)) (s : String)
        (p : String → Option Json) (f : FetchOutcome) (e : Nat) (cfg : ApiConfig),
        jsonLookup fields "text" = some (.str s) → s ≠ "" → s.length ≤ 102400 →
        missingOrInvalidSchema (jsonLookup fields "schema") = false →
        buildApiUrl env = .ok cfg →
        (parseHandler env (.json (.obj fields)) p f e).outboundCall =
          some (buildOutboundBody fields)) := by
  refine ⟨fun fields => ⟨rfl, rfl, rfl, rfl, rfl, rfl, rfl, rfl⟩, ?_, ?_, ?_⟩
  · intro fields elems h
    simp [buildOutboundBody, h, Json.truthy]
  · intro fields h
    simp [buildOutboundBody, h]
  · intro env fields s p f e cfg ht hs hlen hsc hcfg
    rw [parseHandler_valid_eq env fields s p f e ht hs (by omega) hsc]
    unfold withConfig
    rw [hcfg]
    exact callExternal_outboundCall (buildOutboundBody fields) p f e

/-- C5 witness: the provider object is attached for a concrete body with
`providerSort`, omitted for one without it, and the outbound body reaches
the external call for a concrete validated request. -/
theorem c5_outbound_body_witness :
    (buildOutboundBody providerFields).provider =
      some ⟨.arr [.str "p1"], true, false⟩ ∧
    (buildOutboundBody validFields).provider = none ∧
    (parseHandler envDirect (.json (.obj validFields)) (fun _ => none)
        (.networkError "x") 0).outboundCall = some (buildOutboundBody validFields) :=
  ⟨c5_outbound_body.2.1 providerFields [.str "p1"] rfl,
    c5_outbound_body.2.2.1 validFields rfl,
    c5_outbound_body.2.2.2 envDirect validFields "hi" (fun _ => none)
      (.networkError "x") 0
      ⟨"https://openrouter.ai/api/v1/chat/completions", "Authorization",
        "Bearer " ++ "key"⟩
      rfl (by decide) (by decide) rfl rfl⟩

theorem sliceTo_length_le (s : String) (n : Nat) : (sliceTo s n).length ≤ n := by
  unfold sliceTo
  rw [string_mk_length, List.length_take]
  omega

/-- C6: on the parse path the response normalizer classifies the model's
message content into exactly three outcomes: absent or empty content gives
HTTP 500 with error `"AI returned empty response"`; non-empty content that
fails to parse as JSON gives HTTP 500 with an error containing an excerpt
of at most 100 characters of the content; content that parses gives
`success:true` with `data` equal to the parsed value.  In all three cases
`processingTimeMs` is populated. -/
theorem c6_normalizer :
    (∀ (env : Bindings) (fields : List (String × Json)) (s : String)
        (p : String → Option Json) (choices : Option (List ApiChoice))
        (usage : Option ApiUsage) (d e : Nat) (cfg : ApiConfig),
        jsonLookup fields "text" = some (.str s) → s ≠ "" → s.length ≤ 102400 →
        missingOrInvalidSchema (jsonLookup fields "schema") = false →
        buildApiUrl env = .ok cfg →
        (contentOf choices = none ∨ contentOf choices = some "") →
        parseHandler env (.json (.obj fields)) p (.ok choices usage d) e =
          ⟨500, ⟨false, .null, none, some "AI returned empty response", some d⟩,
            some (buildOutboundBody fields)⟩) ∧
    (∀ (env : Bindings) (fields : List (String × Json)) (s : String)
        (p : String → Option Json) (choices : Option (List ApiChoice))
        (usage : Option ApiUsage) (d e : Nat) (cfg : ApiConfig) (t : String),
        jsonLookup fields "text" = some (.str s) → s ≠ "" → s.length ≤ 102400 →
        missingOrInvalidSchema (jsonLookup fields "schema") = false →
        buildApiUrl env = .ok cfg →
        contentOf choices = some t → t ≠ "" → p t = none →
        parseHandler env (.json (.obj fields)) p (.ok choices usage d) e =
          ⟨500,
            ⟨false, .null, none,
              some ("AI returned invalid JSON: " ++ sliceTo t 100 ++ "..."),
              some d⟩, some (buildOutboundBody fields)⟩ ∧
        (sliceTo t 100).length ≤ 100) ∧
    (∀ (env : Bindings) (fields : List (String × Json)) (s : String)
        (p : String → Option Json) (choices : Option (List ApiChoice))
        (usage : Option ApiUsage) (d e : Nat) (cfg : ApiConfig) (t : String)
        (v : Json),
        jsonLookup fields "text" = some (.str s) → s ≠ "" → s.length ≤ 102400 →
        missingOrInvalidSchema (jsonLookup fields "schema") = false →
        buildApiUrl env = .ok cfg →
        contentOf choices = some t → t ≠ "" → p t = some v →
        parseHandler env (.json (.obj fields)) p (.ok choices usage d) e =
          ⟨200, ⟨true, v, usageConv usage, none, some d⟩,
            some (buildOutboundBody fields)⟩) := by
  refine ⟨?_, ?_, ?_⟩
  · intro env fields s p choices usage d e cfg ht hs hlen hsc hcfg hc
    rw [parseHandler_valid_eq env fields s p (.ok choices usage d) e ht hs
      (by omega) hsc]
    unfold withConfig
    rw [hcfg]
    show callExternal (buildOutboundBody fields) p (.ok choices usage d) e = _
    simp only [callExternal]
    rcases hc with hc | hc
    all_goals rw [hc]
    all_goals try rfl
  · intro env fields s p choices usage d e cfg t ht hs hlen hsc hcfg hct htne hp
    have hb : (t == "") = false := beq_eq_false_iff_ne.mpr htne
    refine ⟨?_, sliceTo_length_le t 100⟩
    rw [parseHandler_valid_eq env fields s p (.ok choices usage d) e ht hs
      (by omega) hsc]
    unfold withConfig
    rw [hcfg]
    show callExternal (buildOutboundBody fields) p (.ok choices usage d) e = _
    simp only [callExternal]
    rw [hct]
    simp [hb, hp]
  · intro env fields s p choices usage d e cfg t v ht hs hlen hsc hcfg hct htne hp
    have hb : (t == "") = false := beq_eq_false_iff_ne.mpr htne
    rw [parseHandler_valid_eq env fields s p (.ok choices usage d) e ht hs
      (by omega) hsc]
    unfold withConfig
    rw [hcfg]
    show callExternal (buildOutboundBody fields) p (.ok choices usage d) e = _
    simp only [callExternal]
    rw [hct]
    simp [hb, hp]

/-- C6 witness: the three normalizer outcomes at concrete requests — a
response with no choices, a response whose content is `"not json"` with a
failing parse, and a response whose content is `"42"` parsing to the JSON
number 42. -/
theorem c6_normalizer_witness :
    parseHandler envDirect (.json (.obj validFields)) (fun _ => none)
        (.ok none none 7) 3 =
      ⟨500, ⟨false, .null, none, some "AI returned empty response", some 7⟩,
        some (buildOutboundBody validFields)⟩ ∧
    (parseHandler envDirect (.json (.obj validFields)) (fun _ => none)
        (.ok (some [⟨some ⟨some "not json"⟩⟩]) none 7) 3 =
      ⟨500,
        ⟨false, .null, none,
          some ("AI returned invalid JSON: " ++ sliceTo "not json" 100 ++ "..."),
          some 7⟩, some (buildOutboundBody validFields)⟩ ∧
      (sliceTo "not json" 100).length ≤ 100) ∧
    parseHandler envDirect (.json (.obj validFields)) (fun _ => some (.num 42))
        (.ok (some [⟨some ⟨some "42"⟩⟩]) none 7) 3 =
      ⟨200, ⟨true, .num 42, usageConv none, none, some 7⟩,
        some (buildOutboundBody validFields)⟩ :=
  ⟨c6_normalizer.1 envDirect validFields "hi" (fun _ => none) none none 7 3
      ⟨"https://openrouter.ai/api/v1/chat/completions", "Authorization",
        "Bearer " ++ "key"⟩
      rfl (by decide) (by decide) rfl rfl (Or.inl rfl),
    c6_normalizer.2.1 envDirect validFields "hi" (fun _ => none)
      (some [⟨some ⟨some "not json"⟩⟩]) none 7 3
      ⟨"https://openrouter.ai/api/v1/chat/completions", "Authorization",
        "Bearer " ++ "key"⟩
      "not json" rfl (by decide) (by decide) rfl rfl rfl (by decide) rfl,
    c6_normalizer.2.2 envDirect validFields "hi" (fun _ => some (.num 42))
      (some [⟨some ⟨some "42"⟩⟩]) none 7 3
      ⟨"https://openrouter.ai/api/v1/chat/completions", "Authorization",
        "Bearer " ++ "key"⟩
      "42" (.num 42) rfl (by decide) (by decide) rfl rfl rfl (by decide) rfl⟩

/-- C7: every non-success HTTP status from the external call on the parse
path is an external-call failure: HTTP 500 with `success:false`,
`data:null`, an error message `"API error (<status>): "` followed by the
upstream body text verbatim, and `processingTimeMs` populated from the
elapsed time up to the failure. -/
theorem c7_api_error :
    ∀ (env : Bindings) (fields : List (String × Json)) (s : String)
      (p : String → Option Json) (st : Nat) (bodyText : String) (e : Nat)
      (cfg : ApiConfig),
      jsonLookup fields "text" = some (.str s) → s ≠ "" → s.length ≤ 102400 →
      missingOrInvalidSchema (jsonLookup fields "schema") = false →
      buildApiUrl env = .ok cfg →
      parseHandler env (.json (.obj fields)) p (.httpError st bodyText) e =
        ⟨500,
          ⟨false, .null, none,
            some ("API error (" ++ toString st ++ "): " ++ bodyText), some e⟩,
          some (buildOutboundBody fields)⟩ := by
  intro env fields s p st bodyText e cfg ht hs hlen hsc hcfg
  rw [parseHandler_valid_eq env fields s p (.httpError st bodyText) e ht hs
    (by omega) hsc]
  unfold withConfig
  rw [hcfg]
  rfl

/-- C7 witness: a concrete upstream HTTP 500 with body `"upstream broke"`
is surfaced as an external-call failure with the status and body in the
error message. -/
theorem c7_api_error_witness :
    parseHandler envDirect (.json (.obj validFields)) (fun _ => none)
        (.httpError 500 "upstream broke") 9 =
      ⟨500,
        ⟨false, .null, none,
          some ("API error (" ++ toString 500 ++ "): " ++ "upstream broke"),
          some 9⟩, some (buildOutboundBody validFields)⟩ :=
  c7_api_error envDirect validFields "hi" (fun _ => none) 500 "upstream broke" 9
    ⟨"https://openrouter.ai/api/v1/chat/completions", "Authorization",
      "Bearer " ++ "key"⟩
    rfl (by decide) (by decide) rfl rfl

/-- C9 counterexample: a request whose `text` is present and is the empty
string — a string — and whose `schema` is an object is nonetheless
answered with the `text` MissingField rejection, because `!body.text` is
true for the empty string. -/
theorem c9_empty_text_cex :
    parseHandler envDirect (.json (.obj [("text", .str ""), ("schema", .obj [])]))
        (fun _ => none) (.networkError "x") 0 =
      ⟨400, ⟨false, .null, none, some "Missing or invalid 'text' field", none⟩,
        none⟩ := rfl

/-- C9 (amended): for every request body in which `text` is present, a
string, and non-empty, and `schema` is present and an object, neither of
the two MissingField rejections fires and the request proceeds to the
size check and beyond. -/
theorem c9_missingfield_checks :
    ∀ (fields : List (String × Json)) (s : String) (sf : List (String × Json)),
      jsonLookup fields "text" = some (.str s) → s ≠ "" →
      jsonLookup fields "schema" = some (.obj sf) →
      missingOrInvalidText (jsonLookup fields "text") = false ∧
      missingOrInvalidSchema (jsonLookup fields "schema") = false ∧
      ∀ (env : Bindings) (p : String → Option Json) (f : FetchOutcome) (e : Nat),
        parseHandler env (.json (.obj fields)) p f e =
          if s.length > 102400 then
            ⟨413,
              ⟨false, .null, none,
                some ("Text too large: " ++ toString (roundDiv s.length 1024) ++
                  "KB exceeds 100KB limit"), none⟩, none⟩
          else withConfig env fields p f e := by
  intro fields s sf ht hs hsc
  have h1 : missingOrInvalidText (jsonLookup fields "text") = false := by
    rw [ht]
    exact missingOrInvalidText_str s hs
  have h2 : missingOrInvalidSchema (jsonLookup fields "schema") = false := by
    rw [hsc]
    rfl
  refine ⟨h1, h2, ?_⟩
  intro env p f e
  show validateAndRun env (.obj fields) p f e = _
  unfold validateAndRun
  simp [jsGet, jsonFields, ht, textString, missingOrInvalidText_str s hs, h2]

/-- C9 witness: at a concrete body with non-empty string `text` and object
`schema`, both MissingField checks pass and the handler proceeds past the
size check. -/
theorem c9_missingfield_checks_witness :
    missingOrInvalidText (jsonLookup validFields "text") = false ∧
    missingOrInvalidSchema (jsonLookup validFields "schema") = false ∧
    parseHandler envDirect (.json (.obj validFields)) (fun _ => none)
        (.networkError "x") 0 =
      (if ("hi" : String).length > 102400 then
        ⟨413,
          ⟨false, .null, none,
            some ("Text too large: " ++ toString (roundDiv ("hi" : String).length 1024) ++
              "KB exceeds 100KB limit"), none⟩, none⟩
      else withConfig envDirect validFields (fun _ => none) (.networkError "x") 0) := by
  obtain ⟨h1, h2, h3⟩ := c9_missingfield_checks validFields "hi" [] rfl (by decide) rfl
  exact ⟨h1, h2, h3 envDirect (fun _ => none) (.networkError "x") 0⟩
